import Mathlib

/-!
Shallow embedding of the invoice / purchase-order reconciliation engine
(`scripts/invoice_po_matcher.py`).

Conventions of the embedding:
* Python dict records become Lean structures.  A field read with
  `d.get(key)` (default `None`) or `d.get(key, 0)` is modelled as an
  `Option` field; a field read with `d[key]` (required key) is a plain
  field.  `line_items` is read with `d.get('line_items', [])`, under which
  a missing list is indistinguishable from an empty one, so it is a plain
  `List`.
* Monetary amounts and quantities are modelled as rationals; the numeric
  tolerance `0.01` is the rational `1/100`.
* A Python dict built by a comprehension keeps the LAST entry for a
  duplicated key, so dict lookup is modelled as `find?` on the reversed
  list.
* The result dicts of `compare_invoice_with_po` have different key sets on
  the ERROR and the comparison branches; keys that are absent on a branch
  are modelled as `none`.
* The aggregation loop of `find_all_mismatches` can raise a `TypeError`
  when a MISMATCH comparison stores Python `None` as `invoice_total` or
  `po_total` (the subtraction `comparison['invoice_total'] -
  comparison['po_total']`); a run that raises is modelled as `none`, a
  completed run as `some results`.
-/

namespace InvoicePOMatcher

/-- Severity tag of a header field issue; the source only ever writes
the strings `'HIGH'` and `'MEDIUM'`. -/
inductive Severity where
  | HIGH
  | MEDIUM
deriving DecidableEq

/-- Classification of one invoice; the source only ever writes the
strings `'MATCH'`, `'MISMATCH'` and `'ERROR'`. -/
inductive Status where
  | MATCH
  | MISMATCH
  | ERROR
deriving DecidableEq

/-- One line item of an invoice or of a purchase order.  All its keys are
read with required access (`item['item_code']`, ...), so all fields are
plain. -/
structure Item where
  item_code : String
  description : String
  quantity : ℚ
  unit_price : ℚ
  total : ℚ
deriving DecidableEq

/-- An invoice record.  `invoice['invoice_number']` is a required key;
all the other header keys are read with `.get`. -/
structure Invoice where
  invoice_number : String
  invoice_date : Option String
  po_reference : Option String
  vendor_name : Option String
  vendor_id : Option String
  currency : Option String
  subtotal : Option ℚ
  tax : Option ℚ
  total_amount : Option ℚ
  line_items : List Item
deriving DecidableEq

/-- A purchase-order record.  `po['po_number']` is the lookup key; the
header keys are read with `.get`. -/
structure PurchaseOrder where
  po_number : String
  po_date : Option String
  vendor_name : Option String
  vendor_id : Option String
  currency : Option String
  subtotal : Option ℚ
  tax : Option ℚ
  total_amount : Option ℚ
  line_items : List Item
deriving DecidableEq

/-- Python truthiness of `invoice.get('po_reference')`: both `None` and
the empty string are falsy. -/
def strFalsy : Option String → Bool
  | none => true
  | some s => s == ""

/-- `self.po_lookup = {po['po_number']: po for po in self.purchase_orders}`:
a dict comprehension keeps the last entry for a duplicated key, so the
lookup returns the LAST purchase order with the given number. -/
def po_lookup (pos : List PurchaseOrder) (ref : String) : Option PurchaseOrder :=
  pos.reverse.find? (fun po => po.po_number == ref)

/-- `po_items_lookup = {item['item_code']: item for item in po_items}`,
again last-entry-wins on duplicated item codes. -/
def po_items_lookup (po_items : List Item) (code : String) : Option Item :=
  po_items.reverse.find? (fun it => it.item_code == code)

/-- One per-field sub-issue inside an `ITEM_MISMATCH` entry: the dicts
appended to `item_issues` in `compare_line_items`. -/
structure ItemIssue where
  field : String
  invoice_value : ℚ
  po_value : ℚ
  difference : ℚ
deriving DecidableEq

/-- The `item_issues` list built for one invoice item and the PO item it
resolved to (`compare_line_items`, the three conditional appends for
quantity, unit price and total). -/
def item_issues (inv po : Item) : List ItemIssue :=
  (if inv.quantity ≠ po.quantity then
    [{ field := "quantity", invoice_value := inv.quantity, po_value := po.quantity,
       difference := inv.quantity - po.quantity }]
   else []) ++
  (if |inv.unit_price - po.unit_price| > 1/100 then
    [{ field := "unit_price", invoice_value := inv.unit_price, po_value := po.unit_price,
       difference := inv.unit_price - po.unit_price }]
   else []) ++
  (if |inv.total - po.total| > 1/100 then
    [{ field := "total", invoice_value := inv.total, po_value := po.total,
       difference := inv.total - po.total }]
   else [])

/-- One entry of the `mismatches` list of `compare_line_items`: the three
dict shapes are distinguished by their `type` key. -/
inductive LineMismatch where
  | ITEM_NOT_IN_PO (item_code : String) (description : String)
      (invoice_quantity : ℚ) (issue : String)
  | ITEM_MISMATCH (item_code : String) (description : String)
      (issues : List ItemIssue)
  | ITEM_NOT_IN_INVOICE (item_code : String) (description : String)
      (po_quantity : ℚ) (issue : String)
deriving DecidableEq

/-- The dict returned by `compare_line_items`. -/
structure LineComparison where
  total_items_in_invoice : ℕ
  total_items_in_po : ℕ
  matched_items : ℕ
  mismatches : List LineMismatch
  has_line_item_issues : Bool
deriving DecidableEq

/-- Body of the `for inv_item in invoice_items` loop of
`compare_line_items`: the accumulator is the pair of the `mismatches`
list built so far and the `matched_items` counter. -/
def invItemStep (po_items : List Item) (acc : List LineMismatch × ℕ) (i : Item) :
    List LineMismatch × ℕ :=
  match po_items_lookup po_items i.item_code with
  | none =>
      (acc.1 ++ [.ITEM_NOT_IN_PO i.item_code i.description i.quantity
        "Item in invoice but not in referenced PO"], acc.2)
  | some p =>
      let iss := item_issues i p
      if iss = [] then (acc.1, acc.2 + 1)
      else (acc.1 ++ [.ITEM_MISMATCH i.item_code i.description iss], acc.2)

/-- Body of the `for po_item in po_items` loop of `compare_line_items`:
appends `ITEM_NOT_IN_INVOICE` for each PO item whose code appears on no
invoice item. -/
def poItemStep (invoice_items : List Item) (acc : List LineMismatch) (p : Item) :
    List LineMismatch :=
  if invoice_items.any (fun i => i.item_code == p.item_code) then acc
  else acc ++ [.ITEM_NOT_IN_INVOICE p.item_code p.description p.quantity
    "Item in PO but not invoiced"]

/-- `compare_line_items(invoice_items, po_items)`. -/
def compare_line_items (invoice_items po_items : List Item) : LineComparison :=
  let s := invoice_items.foldl (invItemStep po_items) ([], 0)
  let mis := po_items.foldl (poItemStep invoice_items) s.1
  { total_items_in_invoice := invoice_items.length
    total_items_in_po := po_items.length
    matched_items := s.2
    mismatches := mis
    has_line_item_issues := decide (0 < mis.length) }

/-- The value stored under `invoice_value` / `po_value` of a header
issue: the string checks store (possibly missing) strings, the amount
checks store (possibly missing) numbers. -/
inductive FieldValue where
  | str (v : Option String)
  | num (v : Option ℚ)
deriving DecidableEq

/-- One header field issue dict of `compare_invoice_with_po`; only the
three amount checks write a `difference` key. -/
structure HeaderIssue where
  field : String
  invoice_value : FieldValue
  po_value : FieldValue
  difference : Option ℚ
  severity : Severity
deriving DecidableEq

/-- The `issues` list built by the six header field checks of
`compare_invoice_with_po` (vendor name, vendor id, currency, subtotal,
tax, total amount); amounts are read with `.get(key, 0)`, so a missing
amount is differenced as `0`. -/
def header_issues (invoice : Invoice) (po : PurchaseOrder) : List HeaderIssue :=
  (if invoice.vendor_name ≠ po.vendor_name then
    [{ field := "vendor_name", invoice_value := .str invoice.vendor_name,
       po_value := .str po.vendor_name, difference := none, severity := .HIGH }]
   else []) ++
  (if invoice.vendor_id ≠ po.vendor_id then
    [{ field := "vendor_id", invoice_value := .str invoice.vendor_id,
       po_value := .str po.vendor_id, difference := none, severity := .HIGH }]
   else []) ++
  (if invoice.currency ≠ po.currency then
    [{ field := "currency", invoice_value := .str invoice.currency,
       po_value := .str po.currency, difference := none, severity := .HIGH }]
   else []) ++
  (if |invoice.subtotal.getD 0 - po.subtotal.getD 0| > 1/100 then
    [{ field := "subtotal", invoice_value := .num invoice.subtotal,
       po_value := .num po.subtotal,
       difference := some (invoice.subtotal.getD 0 - po.subtotal.getD 0),
       severity := .HIGH }]
   else []) ++
  (if |invoice.tax.getD 0 - po.tax.getD 0| > 1/100 then
    [{ field := "tax", invoice_value := .num invoice.tax,
       po_value := .num po.tax,
       difference := some (invoice.tax.getD 0 - po.tax.getD 0),
       severity := .MEDIUM }]
   else []) ++
  (if |invoice.total_amount.getD 0 - po.total_amount.getD 0| > 1/100 then
    [{ field := "total_amount", invoice_value := .num invoice.total_amount,
       po_value := .num po.total_amount,
       difference := some (invoice.total_amount.getD 0 - po.total_amount.getD 0),
       severity := .HIGH }]
   else [])

/-- One result dict of `compare_invoice_with_po`.  The two ERROR branches
return dicts without the comparison keys; an absent key is modelled as
`none`.  `invoice_total` / `po_total` hold the value of
`invoice.get('total_amount')` / `po.get('total_amount')`, which can be
Python `None` even when the key is present; on the branches where the
key is present it is never conflated with an absent key by any reader
(`find_all_mismatches` checks key presence only on MISMATCH results,
where the keys always exist). -/
structure ComparisonResult where
  invoice_number : String
  status : Status
  error : Option String
  invoice_date : Option String
  po_reference : Option String
  po_date : Option String
  vendor_name : Option String
  invoice_total : Option ℚ
  po_total : Option ℚ
  header_issues : Option (List HeaderIssue)
  line_item_comparison : Option LineComparison
  total_issues : Option ℕ
deriving DecidableEq

/-- `compare_invoice_with_po(invoice)` against the loaded PO list. -/
def compare_invoice_with_po (pos : List PurchaseOrder) (invoice : Invoice) :
    ComparisonResult :=
  if strFalsy invoice.po_reference then
    { invoice_number := invoice.invoice_number, status := .ERROR,
      error := some "Invoice has no PO reference",
      invoice_date := none, po_reference := none, po_date := none,
      vendor_name := none, invoice_total := none, po_total := none,
      header_issues := none, line_item_comparison := none, total_issues := none }
  else
    let pr := invoice.po_reference.getD ""
    match po_lookup pos pr with
    | none =>
        { invoice_number := invoice.invoice_number, status := .ERROR,
          error := some ("Referenced PO " ++ pr ++ " not found"),
          invoice_date := none, po_reference := some pr, po_date := none,
          vendor_name := none, invoice_total := none, po_total := none,
          header_issues := none, line_item_comparison := none, total_issues := none }
    | some po =>
        let issues := header_issues invoice po
        let licmp := compare_line_items invoice.line_items po.line_items
        let has_issues := decide (0 < issues.length) || licmp.has_line_item_issues
        { invoice_number := invoice.invoice_number
          status := if has_issues then .MISMATCH else .MATCH
          error := none
          invoice_date := invoice.invoice_date
          po_reference := some pr
          po_date := po.po_date
          vendor_name := invoice.vendor_name
          invoice_total := invoice.total_amount
          po_total := po.total_amount
          header_issues := some issues
          line_item_comparison := some licmp
          total_issues := some (issues.length + licmp.mismatches.length) }

/-- The `summary` dict of `find_all_mismatches`. -/
structure Summary where
  total_matched : ℕ
  total_mismatched : ℕ
  total_errors : ℕ
  total_amount_variance : ℚ
  high_severity_issues : ℕ
  medium_severity_issues : ℕ
deriving DecidableEq

/-- The `results` dict of `find_all_mismatches`. -/
structure Results where
  total_invoices : ℕ
  matched : List ComparisonResult
  mismatched : List ComparisonResult
  errors : List ComparisonResult
  summary : Summary
deriving DecidableEq

/-- Body of the `for invoice in self.invoices` loop of
`find_all_mismatches`.  A MISMATCH comparison always carries the
`invoice_total` and `po_total` keys, so the `in` guard of the source is
satisfied; the subtraction `comparison['invoice_total'] -
comparison['po_total']` raises a `TypeError` (modelled as `none`) when
either stored value is Python `None`. -/
def processInvoice (pos : List PurchaseOrder) (acc : Results) (invoice : Invoice) :
    Option Results :=
  let c := compare_invoice_with_po pos invoice
  match c.status with
  | .MATCH =>
      some { acc with
              matched := acc.matched ++ [c],
              summary := { acc.summary with
                            total_matched := acc.summary.total_matched + 1 } }
  | .MISMATCH =>
      match c.invoice_total, c.po_total with
      | some a, some b =>
          let hs := (c.header_issues.getD []).countP
            (fun iss => iss.severity == Severity.HIGH)
          let ms := (c.header_issues.getD []).countP
            (fun iss => iss.severity == Severity.MEDIUM)
          some { acc with
                  mismatched := acc.mismatched ++ [c],
                  summary := { acc.summary with
                                total_mismatched := acc.summary.total_mismatched + 1,
                                total_amount_variance :=
                                  acc.summary.total_amount_variance + |a - b|,
                                high_severity_issues :=
                                  acc.summary.high_severity_issues + hs,
                                medium_severity_issues :=
                                  acc.summary.medium_severity_issues + ms } }
      | _, _ => none
  | .ERROR =>
      some { acc with
              errors := acc.errors ++ [c],
              summary := { acc.summary with
                            total_errors := acc.summary.total_errors + 1 } }

/-- The initial `results` dict of `find_all_mismatches`. -/
def initResults (invoices : List Invoice) : Results :=
  { total_invoices := invoices.length, matched := [], mismatched := [], errors := [],
    summary := { total_matched := 0, total_mismatched := 0, total_errors := 0,
                 total_amount_variance := 0, high_severity_issues := 0,
                 medium_severity_issues := 0 } }

/-- The invoice loop of `find_all_mismatches`, invoice by invoice in
collection order; `none` models an uncaught exception aborting the run. -/
def runInvoices (pos : List PurchaseOrder) (acc : Results) :
    List Invoice → Option Results
  | [] => some acc
  | invoice :: rest =>
      match processInvoice pos acc invoice with
      | none => none
      | some acc2 => runInvoices pos acc2 rest

/-- `find_all_mismatches()` over the loaded PO list and invoice list. -/
def find_all_mismatches (pos : List PurchaseOrder) (invoices : List Invoice) :
    Option Results :=
  runInvoices pos (initResults invoices) invoices

/-- The numeric header figures of the text report of
`get_mismatch_summary_text` (the per-mismatch and per-error detail lines
reuse already-computed data and are abstracted away here). -/
structure ReportStats where
  total_invoices : ℕ
  total_matched : ℕ
  matched_pct : ℚ
  total_mismatched : ℕ
  mismatched_pct : ℚ
  total_errors : ℕ
  total_amount_variance : ℚ
  high_severity_issues : ℕ
  medium_severity_issues : ℕ
deriving DecidableEq

/-- `get_mismatch_summary_text()`: the report header computes
`summary['total_matched'] / results['total_invoices'] * 100` and the
analogous mismatched percentage with true division and NO zero guard, so
a run over zero invoices raises `ZeroDivisionError` (modelled as
`none`). -/
def get_mismatch_summary_text (pos : List PurchaseOrder) (invoices : List Invoice) :
    Option ReportStats :=
  (find_all_mismatches pos invoices).bind fun r =>
    if r.total_invoices = 0 then none
    else some
      { total_invoices := r.total_invoices
        total_matched := r.summary.total_matched
        matched_pct := (r.summary.total_matched : ℚ) / (r.total_invoices : ℚ) * 100
        total_mismatched := r.summary.total_mismatched
        mismatched_pct := (r.summary.total_mismatched : ℚ) / (r.total_invoices : ℚ) * 100
        total_errors := r.summary.total_errors
        total_amount_variance := r.summary.total_amount_variance
        high_severity_issues := r.summary.high_severity_issues
        medium_severity_issues := r.summary.medium_severity_issues }

/-- The purchase order an invoice's reference resolves to: `none` when the
reference is falsy or no loaded PO carries the referenced number (the two
ERROR branches of `compare_invoice_with_po`). -/
def resolved_po (pos : List PurchaseOrder) (invoice : Invoice) : Option PurchaseOrder :=
  if strFalsy invoice.po_reference then none
  else po_lookup pos (invoice.po_reference.getD "")

/-- The comparison results of a run, restricted to one status, in invoice
collection order. -/
def classify (pos : List PurchaseOrder) (st : Status) (invoices : List Invoice) :
    List ComparisonResult :=
  (invoices.map (compare_invoice_with_po pos)).filter (fun c => c.status == st)

/-- The invoices of a run that are classified MISMATCH, in collection
order. -/
def mismatched_invoices (pos : List PurchaseOrder) (invoices : List Invoice) :
    List Invoice :=
  invoices.filter (fun invoice =>
    (compare_invoice_with_po pos invoice).status == Status.MISMATCH)

/-- Specification-side variance of one invoice: the absolute difference of
the invoice total and the resolved PO total (missing amounts read as 0),
and 0 when no PO resolves. -/
def invoice_variance (pos : List PurchaseOrder) (invoice : Invoice) : ℚ :=
  match resolved_po pos invoice with
  | some po => |invoice.total_amount.getD 0 - po.total_amount.getD 0|
  | none => 0

/-- Specification-side aggregate variance: summed over the invoices
classified MISMATCH only. -/
def variance_spec (pos : List PurchaseOrder) (invoices : List Invoice) : ℚ :=
  ((mismatched_invoices pos invoices).map (invoice_variance pos)).sum

/-- The header issues of one invoice against its resolved PO ([] when no
PO resolves). -/
def invoice_header_issues (pos : List PurchaseOrder) (invoice : Invoice) :
    List HeaderIssue :=
  match resolved_po pos invoice with
  | some po => header_issues invoice po
  | none => []

/-- Specification-side count of HIGH-severity header issues over the
invoices classified MISMATCH. -/
def high_count_spec (pos : List PurchaseOrder) (invoices : List Invoice) : ℕ :=
  ((mismatched_invoices pos invoices).map (fun invoice =>
    (invoice_header_issues pos invoice).countP
      (fun iss => iss.severity == Severity.HIGH))).sum

/-- Specification-side count of MEDIUM-severity header issues over the
invoices classified MISMATCH. -/
def medium_count_spec (pos : List PurchaseOrder) (invoices : List Invoice) : ℕ :=
  ((mismatched_invoices pos invoices).map (fun invoice =>
    (invoice_header_issues pos invoice).countP
      (fun iss => iss.severity == Severity.MEDIUM))).sum

/-- Specification-side total number of header issues over the invoices
classified MISMATCH. -/
def header_count_spec (pos : List PurchaseOrder) (invoices : List Invoice) : ℕ :=
  ((mismatched_invoices pos invoices).map (fun invoice =>
    (invoice_header_issues pos invoice).length)).sum

/-- The per-invoice-item entry contributed to the `mismatches` list:
`ITEM_NOT_IN_PO` when the code resolves to no PO item, an `ITEM_MISMATCH`
when it resolves but some field differs, nothing when the item matches. -/
def invoice_side_entry (po_items : List Item) (i : Item) : Option LineMismatch :=
  match po_items_lookup po_items i.item_code with
  | none => some (.ITEM_NOT_IN_PO i.item_code i.description i.quantity
      "Item in invoice but not in referenced PO")
  | some p =>
      if item_issues i p = [] then none
      else some (.ITEM_MISMATCH i.item_code i.description (item_issues i p))

/-- Whether an invoice item counts towards `matched_items`. -/
def item_matched (po_items : List Item) (i : Item) : Bool :=
  match po_items_lookup po_items i.item_code with
  | none => false
  | some p => item_issues i p = []

/-- Sample line item used by the concrete witnesses. -/
def itemA : Item :=
  { item_code := "IT-001", description := "Widget", quantity := 5,
    unit_price := 10, total := 50 }

/-- Sample item whose unit price differs from `itemQ` by exactly 1/100. -/
def itemP : Item :=
  { item_code := "IT-002", description := "Bolt", quantity := 3,
    unit_price := 1/100, total := 30 }

/-- Counterpart of `itemP` with unit price 0. -/
def itemQ : Item :=
  { item_code := "IT-002", description := "Bolt", quantity := 3,
    unit_price := 0, total := 30 }

/-- Sample item differing from `itemA` in quantity, unit price and total. -/
def itemB : Item :=
  { item_code := "IT-001", description := "Widget", quantity := 2,
    unit_price := 12, total := 24 }

/-- Sample purchase order. -/
def poA : PurchaseOrder :=
  { po_number := "PO-1", po_date := some "2024-01-01",
    vendor_name := some "Acme", vendor_id := some "V1", currency := some "USD",
    subtotal := some 50, tax := some 5, total_amount := some 55,
    line_items := [itemA] }

/-- Sample invoice identical to `poA` field for field. -/
def invMatch : Invoice :=
  { invoice_number := "INV-1", invoice_date := some "2024-01-02",
    po_reference := some "PO-1", vendor_name := some "Acme",
    vendor_id := some "V1", currency := some "USD", subtotal := some 50,
    tax := some 5, total_amount := some 55, line_items := [itemA] }

/-- Sample invoice carrying no PO reference at all. -/
def invNoRef : Invoice :=
  { invoice_number := "INV-2", invoice_date := none, po_reference := none,
    vendor_name := none, vendor_id := none, currency := none,
    subtotal := none, tax := none, total_amount := none, line_items := [] }

/-- The results record of running `find_all_mismatches` on `[invNoRef]`
with no loaded purchase order. -/
def runNoRef : Results :=
  { total_invoices := 1, matched := [], mismatched := [],
    errors := [compare_invoice_with_po [] invNoRef],
    summary := { total_matched := 0, total_mismatched := 0, total_errors := 1,
                 total_amount_variance := 0, high_severity_issues := 0,
                 medium_severity_issues := 0 } }

theorem foldl_invItemStep_eq (po_items : List Item) :
    ∀ (items : List Item) (acc : List LineMismatch × ℕ),
      items.foldl (invItemStep po_items) acc =
        (acc.1 ++ items.filterMap (invoice_side_entry po_items),
         acc.2 + items.countP (item_matched po_items)) := by
  intro items
  induction items with
  | nil => intro acc; simp
  | cons i rest ih =>
      intro acc
      rw [List.foldl_cons, ih]
      simp only [List.filterMap_cons, List.countP_cons]
      unfold invItemStep invoice_side_entry item_matched
      cases h : po_items_lookup po_items i.item_code with
      | none => simp
      | some p =>
          by_cases hiss : item_issues i p = [] <;> (simp [hiss]; try omega)

theorem foldl_poItemStep_eq (invoice_items : List Item) :
    ∀ (po_items : List Item) (acc : List LineMismatch),
      po_items.foldl (poItemStep invoice_items) acc =
        acc ++ (po_items.filter (fun q =>
            !invoice_items.any (fun j => j.item_code == q.item_code))).map
          (fun q => LineMismatch.ITEM_NOT_IN_INVOICE q.item_code q.description
            q.quantity "Item in PO but not invoiced") := by
  intro po_items
  induction po_items with
  | nil => intro acc; simp
  | cons p rest ih =>
      intro acc
      rw [List.foldl_cons, ih]
      simp only [List.filter_cons]
      unfold poItemStep
      by_cases h : invoice_items.any (fun j => j.item_code == p.item_code) <;>
        simp [h]

/-- Decomposition of the mismatch list: the invoice-side entries in
invoice iteration order, followed by the PO-only entries in PO iteration
order. -/
theorem compare_line_items_mismatches (invoice_items po_items : List Item) :
    (compare_line_items invoice_items po_items).mismatches =
      invoice_items.filterMap (invoice_side_entry po_items) ++
      (po_items.filter (fun q =>
          !invoice_items.any (fun j => j.item_code == q.item_code))).map
        (fun q => LineMismatch.ITEM_NOT_IN_INVOICE q.item_code q.description
          q.quantity "Item in PO but not invoiced") := by
  simp only [compare_line_items, foldl_invItemStep_eq, foldl_poItemStep_eq]
  simp

theorem compare_line_items_matched (invoice_items po_items : List Item) :
    (compare_line_items invoice_items po_items).matched_items =
      invoice_items.countP (item_matched po_items) := by
  simp only [compare_line_items, foldl_invItemStep_eq, foldl_poItemStep_eq]
  simp

theorem compare_line_items_has_issues (invoice_items po_items : List Item) :
    (compare_line_items invoice_items po_items).has_line_item_issues =
      decide (0 < (compare_line_items invoice_items po_items).mismatches.length) := rfl

theorem compare_noref (pos : List PurchaseOrder) (invoice : Invoice)
    (h : strFalsy invoice.po_reference = true) :
    compare_invoice_with_po pos invoice =
      { invoice_number := invoice.invoice_number, status := .ERROR,
        error := some "Invoice has no PO reference",
        invoice_date := none, po_reference := none, po_date := none,
        vendor_name := none, invoice_total := none, po_total := none,
        header_issues := none, line_item_comparison := none, total_issues := none } := by
  unfold compare_invoice_with_po
  rw [if_pos h]

theorem compare_notfound (pos : List PurchaseOrder) (invoice : Invoice) (s : String)
    (h1 : invoice.po_reference = some s) (h2 : s ≠ "")
    (h3 : po_lookup pos s = none) :
    compare_invoice_with_po pos invoice =
      { invoice_number := invoice.invoice_number, status := .ERROR,
        error := some ("Referenced PO " ++ s ++ " not found"),
        invoice_date := none, po_reference := some s, po_date := none,
        vendor_name := none, invoice_total := none, po_total := none,
        header_issues := none, line_item_comparison := none, total_issues := none } := by
  have hf : strFalsy invoice.po_reference = false := by
    simp [strFalsy, h1, h2]
  unfold compare_invoice_with_po
  rw [hf]
  simp only [Bool.false_eq_true, if_false, h1, Option.getD_some, h3]

/-- Characterization of `compare_invoice_with_po` on an invoice whose PO
reference resolves. -/
theorem compare_resolved (pos : List PurchaseOrder) (invoice : Invoice)
    (po : PurchaseOrder) (h : resolved_po pos invoice = some po) :
    compare_invoice_with_po pos invoice =
      { invoice_number := invoice.invoice_number
        status := if header_issues invoice po = [] ∧
            (compare_line_items invoice.line_items po.line_items).mismatches = []
          then .MATCH else .MISMATCH
        error := none
        invoice_date := invoice.invoice_date
        po_reference := some (invoice.po_reference.getD "")
        po_date := po.po_date
        vendor_name := invoice.vendor_name
        invoice_total := invoice.total_amount
        po_total := po.total_amount
        header_issues := some (header_issues invoice po)
        line_item_comparison := some (compare_line_items invoice.line_items po.line_items)
        total_issues := some ((header_issues invoice po).length +
          (compare_line_items invoice.line_items po.line_items).mismatches.length) } := by
  unfold resolved_po at h
  by_cases hf : strFalsy invoice.po_reference
  · rw [if_pos hf] at h; exact absurd h (by simp)
  · rw [if_neg hf] at h
    unfold compare_invoice_with_po
    rw [if_neg hf]
    simp only [h]
    have hstat :
        (if (decide (0 < (header_issues invoice po).length) ||
            (compare_line_items invoice.line_items po.line_items).has_line_item_issues) = true
          then Status.MISMATCH else Status.MATCH) =
        (if header_issues invoice po = [] ∧
            (compare_line_items invoice.line_items po.line_items).mismatches = []
          then Status.MATCH else Status.MISMATCH) := by
      rw [compare_line_items_has_issues]
      by_cases hh : header_issues invoice po = [] <;>
        by_cases hm : (compare_line_items invoice.line_items po.line_items).mismatches = [] <;>
          simp [hh, hm, List.length_pos, List.isEmpty_iff]
    rw [hstat]

/-- The classification of an invoice is ERROR exactly when its reference
resolves to no purchase order. -/
theorem compare_status_error_iff (pos : List PurchaseOrder) (invoice : Invoice) :
    (compare_invoice_with_po pos invoice).status = .ERROR ↔
      resolved_po pos invoice = none := by
  unfold resolved_po
  by_cases hf : strFalsy invoice.po_reference
  · rw [compare_noref pos invoice hf, if_pos hf]
    simp
  · rw [if_neg hf]
    cases hl : po_lookup pos (invoice.po_reference.getD "") with
    | none =>
        cases hpr : invoice.po_reference with
        | none => rw [hpr] at hf; simp [strFalsy] at hf
        | some s =>
            have hs : s ≠ "" := by
              intro he
              rw [hpr, he] at hf
              simp [strFalsy] at hf
            rw [hpr] at hl
            simp only [Option.getD_some] at hl
            rw [compare_notfound pos invoice s hpr hs hl]
            simp
    | some po =>
        have hres : resolved_po pos invoice = some po := by
          unfold resolved_po
          rw [if_neg hf, hl]
        rw [compare_resolved pos invoice po hres]
        constructor
        · intro hc
          by_cases hcond : header_issues invoice po = [] ∧
              (compare_line_items invoice.line_items po.line_items).mismatches = [] <;>
            simp [hcond] at hc
        · intro hc
          exact absurd hc (by simp)

theorem processInvoice_of_match (pos : List PurchaseOrder) (acc : Results)
    (invoice : Invoice)
    (h : (compare_invoice_with_po pos invoice).status = .MATCH) :
    processInvoice pos acc invoice =
      some { acc with
              matched := acc.matched ++ [compare_invoice_with_po pos invoice],
              summary := { acc.summary with
                            total_matched := acc.summary.total_matched + 1 } } := by
  unfold processInvoice
  simp only [h]

theorem processInvoice_of_error (pos : List PurchaseOrder) (acc : Results)
    (invoice : Invoice)
    (h : (compare_invoice_with_po pos invoice).status = .ERROR) :
    processInvoice pos acc invoice =
      some { acc with
              errors := acc.errors ++ [compare_invoice_with_po pos invoice],
              summary := { acc.summary with
                            total_errors := acc.summary.total_errors + 1 } } := by
  unfold processInvoice
  simp only [h]

theorem processInvoice_of_mismatch (pos : List PurchaseOrder) (acc : Results)
    (invoice : Invoice) (a b : ℚ)
    (h : (compare_invoice_with_po pos invoice).status = .MISMATCH)
    (ha : (compare_invoice_with_po pos invoice).invoice_total = some a)
    (hb : (compare_invoice_with_po pos invoice).po_total = some b) :
    processInvoice pos acc invoice =
      some { acc with
              mismatched := acc.mismatched ++ [compare_invoice_with_po pos invoice],
              summary := { acc.summary with
                            total_mismatched := acc.summary.total_mismatched + 1,
                            total_amount_variance :=
                              acc.summary.total_amount_variance + |a - b|,
                            high_severity_issues :=
                              acc.summary.high_severity_issues +
                                ((compare_invoice_with_po pos invoice).header_issues.getD
                                  []).countP (fun iss => iss.severity == Severity.HIGH),
                            medium_severity_issues :=
                              acc.summary.medium_severity_issues +
                                ((compare_invoice_with_po pos invoice).header_issues.getD
                                  []).countP
                                  (fun iss => iss.severity == Severity.MEDIUM) } } := by
  unfold processInvoice
  simp only [h, ha, hb]

theorem processInvoice_of_mismatch_stuck (pos : List PurchaseOrder) (acc : Results)
    (invoice : Invoice)
    (h : (compare_invoice_with_po pos invoice).status = .MISMATCH)
    (hab : (compare_invoice_with_po pos invoice).invoice_total = none ∨
      (compare_invoice_with_po pos invoice).po_total = none) :
    processInvoice pos acc invoice = none := by
  unfold processInvoice
  simp only [h]
  rcases hab with ha | hb
  · rw [ha]
  · rw [hb]
    cases hit : (compare_invoice_with_po pos invoice).invoice_total <;> rfl

theorem classify_cons (pos : List PurchaseOrder) (st : Status) (invoice : Invoice)
    (rest : List Invoice) :
    classify pos st (invoice :: rest) =
      (if (compare_invoice_with_po pos invoice).status = st
        then compare_invoice_with_po pos invoice :: classify pos st rest
        else classify pos st rest) := by
  simp only [classify, List.map_cons, List.filter_cons]
  by_cases h : (compare_invoice_with_po pos invoice).status = st <;> simp [h]

theorem mismatched_invoices_cons (pos : List PurchaseOrder) (invoice : Invoice)
    (rest : List Invoice) :
    mismatched_invoices pos (invoice :: rest) =
      (if (compare_invoice_with_po pos invoice).status = .MISMATCH
        then invoice :: mismatched_invoices pos rest
        else mismatched_invoices pos rest) := by
  simp only [mismatched_invoices, List.filter_cons]
  by_cases h : (compare_invoice_with_po pos invoice).status = .MISMATCH <;> simp [h]

theorem variance_spec_cons (pos : List PurchaseOrder) (invoice : Invoice)
    (rest : List Invoice) :
    variance_spec pos (invoice :: rest) =
      (if (compare_invoice_with_po pos invoice).status = .MISMATCH
        then invoice_variance pos invoice else 0) + variance_spec pos rest := by
  unfold variance_spec
  rw [mismatched_invoices_cons]
  by_cases h : (compare_invoice_with_po pos invoice).status = .MISMATCH <;> simp [h]

theorem high_count_spec_cons (pos : List PurchaseOrder) (invoice : Invoice)
    (rest : List Invoice) :
    high_count_spec pos (invoice :: rest) =
      (if (compare_invoice_with_po pos invoice).status = .MISMATCH
        then (invoice_header_issues pos invoice).countP
          (fun iss => iss.severity == Severity.HIGH) else 0) +
      high_count_spec pos rest := by
  unfold high_count_spec
  rw [mismatched_invoices_cons]
  by_cases h : (compare_invoice_with_po pos invoice).status = .MISMATCH <;> simp [h]

theorem medium_count_spec_cons (pos : List PurchaseOrder) (invoice : Invoice)
    (rest : List Invoice) :
    medium_count_spec pos (invoice :: rest) =
      (if (compare_invoice_with_po pos invoice).status = .MISMATCH
        then (invoice_header_issues pos invoice).countP
          (fun iss => iss.severity == Severity.MEDIUM) else 0) +
      medium_count_spec pos rest := by
  unfold medium_count_spec
  rw [mismatched_invoices_cons]
  by_cases h : (compare_invoice_with_po pos invoice).status = .MISMATCH <;> simp [h]

theorem classify_length_partition (pos : List PurchaseOrder) (invoices : List Invoice) :
    (classify pos .MATCH invoices).length + (classify pos .MISMATCH invoices).length +
      (classify pos .ERROR invoices).length = invoices.length := by
  induction invoices with
  | nil => simp [classify]
  | cons invoice rest ih =>
      rw [classify_cons, classify_cons, classify_cons]
      cases hst : (compare_invoice_with_po pos invoice).status <;> (simp [hst]; omega)

theorem severity_countP_length (issues : List HeaderIssue) :
    issues.countP (fun iss => iss.severity == Severity.HIGH) +
      issues.countP (fun iss => iss.severity == Severity.MEDIUM) = issues.length := by
  induction issues with
  | nil => simp
  | cons iss rest ih =>
      rw [List.countP_cons, List.countP_cons]
      cases hs : iss.severity <;> (simp [hs]; omega)

theorem count_specs_add (pos : List PurchaseOrder) (invoices : List Invoice) :
    high_count_spec pos invoices + medium_count_spec pos invoices =
      header_count_spec pos invoices := by
  unfold high_count_spec medium_count_spec header_count_spec
  generalize mismatched_invoices pos invoices = l
  induction l with
  | nil => simp
  | cons j rest ih =>
      simp only [List.map_cons, List.sum_cons]
      have hj := severity_countP_length (invoice_header_issues pos j)
      omega

/-- One-run characterization of the aggregation loop: every counter and
every list of a completed run is the initial one extended by the
corresponding specification-side quantity. -/
theorem runInvoices_spec (pos : List PurchaseOrder) :
    ∀ (invs : List Invoice) (s r : Results),
      runInvoices pos s invs = some r →
      r.total_invoices = s.total_invoices ∧
      r.matched = s.matched ++ classify pos .MATCH invs ∧
      r.mismatched = s.mismatched ++ classify pos .MISMATCH invs ∧
      r.errors = s.errors ++ classify pos .ERROR invs ∧
      r.summary.total_matched =
        s.summary.total_matched + (classify pos .MATCH invs).length ∧
      r.summary.total_mismatched =
        s.summary.total_mismatched + (classify pos .MISMATCH invs).length ∧
      r.summary.total_errors =
        s.summary.total_errors + (classify pos .ERROR invs).length ∧
      r.summary.total_amount_variance =
        s.summary.total_amount_variance + variance_spec pos invs ∧
      r.summary.high_severity_issues =
        s.summary.high_severity_issues + high_count_spec pos invs ∧
      r.summary.medium_severity_issues =
        s.summary.medium_severity_issues + medium_count_spec pos invs := by
  intro invs
  induction invs with
  | nil =>
      intro s r h
      rw [runInvoices] at h
      injection h with h
      subst h
      simp [classify, variance_spec, mismatched_invoices, high_count_spec,
        medium_count_spec]
  | cons invoice rest ih =>
      intro s r h
      rw [runInvoices] at h
      cases hpi : processInvoice pos s invoice with
      | none => rw [hpi] at h; exact Option.noConfusion h
      | some s2 =>
          rw [hpi] at h
          obtain ⟨e0, e1, e2, e3, e4, e5, e6, e7, e8, e9⟩ := ih s2 r h
          cases hst : (compare_invoice_with_po pos invoice).status with
          | MATCH =>
              rw [processInvoice_of_match pos s invoice hst] at hpi
              injection hpi with hpi
              subst hpi
              simp only [] at e0 e1 e2 e3 e4 e5 e6 e7 e8 e9
              rw [classify_cons, classify_cons, classify_cons, variance_spec_cons,
                high_count_spec_cons, medium_count_spec_cons]
              simp only [hst]
              refine ⟨e0, ?_, e2, e3, ?_, e5, e6, ?_, ?_, ?_⟩ <;>
                (simp [e1, e4, e7, e8, e9]; try omega)
          | ERROR =>
              rw [processInvoice_of_error pos s invoice hst] at hpi
              injection hpi with hpi
              subst hpi
              simp only [] at e0 e1 e2 e3 e4 e5 e6 e7 e8 e9
              rw [classify_cons, classify_cons, classify_cons, variance_spec_cons,
                high_count_spec_cons, medium_count_spec_cons]
              simp only [hst]
              refine ⟨e0, e1, e2, ?_, e4, e5, ?_, ?_, ?_, ?_⟩ <;>
                (simp [e3, e6, e7, e8, e9]; try omega)
          | MISMATCH =>
              have hne : resolved_po pos invoice ≠ none := by
                intro hn
                have he := (compare_status_error_iff pos invoice).mpr hn
                rw [hst] at he
                exact Status.noConfusion he
              obtain ⟨po, hpo⟩ := Option.ne_none_iff_exists'.mp hne
              have hcmp := compare_resolved pos invoice po hpo
              have hinv : invoice_header_issues pos invoice = header_issues invoice po := by
                unfold invoice_header_issues
                rw [hpo]
              cases hta : invoice.total_amount with
              | none =>
                  have hstuck := processInvoice_of_mismatch_stuck pos s invoice hst
                    (Or.inl (by rw [hcmp]; exact hta))
                  rw [hstuck] at hpi
                  exact Option.noConfusion hpi
              | some a =>
                  cases htb : po.total_amount with
                  | none =>
                      have hstuck := processInvoice_of_mismatch_stuck pos s invoice hst
                        (Or.inr (by rw [hcmp]; exact htb))
                      rw [hstuck] at hpi
                      exact Option.noConfusion hpi
                  | some b =>
                      have hita : (compare_invoice_with_po pos invoice).invoice_total =
                          some a := by rw [hcmp]; exact hta
                      have hitb : (compare_invoice_with_po pos invoice).po_total =
                          some b := by rw [hcmp]; exact htb
                      rw [processInvoice_of_mismatch pos s invoice a b hst hita hitb]
                        at hpi
                      injection hpi with hpi
                      subst hpi
                      simp only [] at e0 e1 e2 e3 e4 e5 e6 e7 e8 e9
                      have hgetd : (compare_invoice_with_po pos invoice).header_issues.getD
                          [] = header_issues invoice po := by rw [hcmp]; rfl
                      have hvar : invoice_variance pos invoice = |a - b| := by
                        unfold invoice_variance
                        rw [hpo]
                        simp [hta, htb]
                      rw [classify_cons, classify_cons, classify_cons, variance_spec_cons,
                        high_count_spec_cons, medium_count_spec_cons]
                      simp only [hst, hinv, hvar]
                      rw [hgetd] at e8 e9
                      refine ⟨e0, e1, ?_, e3, e4, ?_, e6, ?_, ?_, ?_⟩
                      · simp [e2]
                      · simp [e5]
                        try omega
                      · rw [e7]
                        simp
                        try ring
                      · simp [e8]
                        try omega
                      · simp [e9]
                        try omega

/-- A completed run forces every MISMATCH-classified invoice and its
resolved PO to carry comparable totals (otherwise the variance
subtraction would have raised). -/
theorem runInvoices_mismatch_totals (pos : List PurchaseOrder) :
    ∀ (invs : List Invoice) (s r : Results), runInvoices pos s invs = some r →
      ∀ invoice ∈ invs, (compare_invoice_with_po pos invoice).status = .MISMATCH →
        ∃ a b, (compare_invoice_with_po pos invoice).invoice_total = some a ∧
          (compare_invoice_with_po pos invoice).po_total = some b := by
  intro invs
  induction invs with
  | nil => intro s r h invoice hm; exact absurd hm (by simp)
  | cons j rest ih =>
      intro s r h invoice hm hst
      rw [runInvoices] at h
      cases hpi : processInvoice pos s j with
      | none => rw [hpi] at h; exact Option.noConfusion h
      | some s2 =>
          rw [hpi] at h
          rcases List.mem_cons.mp hm with he | ht
          · subst he
            cases hita : (compare_invoice_with_po pos invoice).invoice_total with
            | none =>
                rw [processInvoice_of_mismatch_stuck pos s invoice hst (Or.inl hita)]
                  at hpi
                exact Option.noConfusion hpi
            | some a =>
                cases hitb : (compare_invoice_with_po pos invoice).po_total with
                | none =>
                    rw [processInvoice_of_mismatch_stuck pos s invoice hst (Or.inr hitb)]
                      at hpi
                    exact Option.noConfusion hpi
                | some b => exact ⟨a, b, rfl, rfl⟩
          · exact ih s2 r h invoice ht hst

/-- C1: a completed `find_all_mismatches` run places each invoice's result
in exactly one of the lists matched / mismatched / errors (the three lists
are the status-filtered classifications of the comparisons, in order),
their lengths sum to the invoice count, `total_invoices` is the invoice
count, and the summary counters `total_matched`, `total_mismatched`,
`total_errors` equal the lengths of the respective lists. -/
theorem find_all_mismatches_partition (pos : List PurchaseOrder)
    (invoices : List Invoice) (r : Results)
    (h : find_all_mismatches pos invoices = some r) :
    r.matched.length + r.mismatched.length + r.errors.length = invoices.length ∧
    r.total_invoices = invoices.length ∧
    r.summary.total_matched = r.matched.length ∧
    r.summary.total_mismatched = r.mismatched.length ∧
    r.summary.total_errors = r.errors.length ∧
    r.matched = classify pos .MATCH invoices ∧
    r.mismatched = classify pos .MISMATCH invoices ∧
    r.errors = classify pos .ERROR invoices := by
  obtain ⟨e0, e1, e2, e3, e4, e5, e6, _, _, _⟩ :=
    runInvoices_spec pos invoices (initResults invoices) r h
  simp only [initResults, List.nil_append] at e0 e1 e2 e3 e4 e5 e6
  have hpart := classify_length_partition pos invoices
  refine ⟨?_, e0, ?_, ?_, ?_, e1, e2, e3⟩
  · rw [e1, e2, e3]
    exact hpart
  · rw [e4, e1]
    omega
  · rw [e5, e2]
    omega
  · rw [e6, e3]
    omega

/-- C4: the summary counter `total_amount_variance` of a completed run is
the sum, over the invoices classified MISMATCH only, of the absolute
difference of the invoice total and the resolved PO total; MATCH and
ERROR invoices contribute nothing (the sum ranges over
`mismatched_invoices` only), and on a completed run every mismatched
invoice and its PO carry actual totals, so each summand is
`abs(invoice.total_amount - po.total_amount)`. -/
theorem total_amount_variance_correct (pos : List PurchaseOrder)
    (invoices : List Invoice) (r : Results)
    (h : find_all_mismatches pos invoices = some r) :
    r.summary.total_amount_variance = variance_spec pos invoices ∧
    ∀ invoice ∈ mismatched_invoices pos invoices, ∃ po a b,
      resolved_po pos invoice = some po ∧ invoice.total_amount = some a ∧
      po.total_amount = some b ∧ invoice_variance pos invoice = |a - b| := by
  obtain ⟨_, _, _, _, _, _, _, e7, _, _⟩ :=
    runInvoices_spec pos invoices (initResults invoices) r h
  constructor
  · simpa [initResults] using e7
  · intro invoice hmem
    have hmem2 := List.mem_filter.mp hmem
    have hst : (compare_invoice_with_po pos invoice).status = .MISMATCH := by
      simpa using hmem2.2
    obtain ⟨a, b, hta, htb⟩ :=
      runInvoices_mismatch_totals pos invoices (initResults invoices) r h invoice
        hmem2.1 hst
    have hne : resolved_po pos invoice ≠ none := by
      intro hn
      have he := (compare_status_error_iff pos invoice).mpr hn
      rw [hst] at he
      exact Status.noConfusion he
    obtain ⟨po, hpo⟩ := Option.ne_none_iff_exists'.mp hne
    have hcmp := compare_resolved pos invoice po hpo
    rw [hcmp] at hta htb
    simp only [] at hta htb
    refine ⟨po, a, b, hpo, hta, htb, ?_⟩
    unfold invoice_variance
    rw [hpo]
    simp [hta, htb]

/-- C10: the summary counters `high_severity_issues` and
`medium_severity_issues` of a completed run count exactly the header
issues of the invoices classified MISMATCH (split by severity), so their
sum is the total number of header issues across mismatched invoices —
line-item mismatches carry no severity and contribute to neither
counter. -/
theorem severity_counters_header_only (pos : List PurchaseOrder)
    (invoices : List Invoice) (r : Results)
    (h : find_all_mismatches pos invoices = some r) :
    r.summary.high_severity_issues + r.summary.medium_severity_issues =
      header_count_spec pos invoices ∧
    r.summary.high_severity_issues = high_count_spec pos invoices ∧
    r.summary.medium_severity_issues = medium_count_spec pos invoices := by
  obtain ⟨_, _, _, _, _, _, _, _, e8, e9⟩ :=
    runInvoices_spec pos invoices (initResults invoices) r h
  simp only [initResults, Nat.zero_add] at e8 e9
  refine ⟨?_, e8, e9⟩
  rw [e8, e9, count_specs_add]

/-- C2: an invoice whose PO reference is empty/null, or whose reference
matches no loaded PO, yields an ERROR result that skips header and
line-item comparison entirely (the result carries no `header_issues` and
no `line_item_comparison`), with a descriptive message naming the missing
reference when one was given; and the aggregation loop handles such a
result without failing, appending it to the errors list and moving on. -/
theorem compare_unresolved_reference_error (pos : List PurchaseOrder)
    (invoice : Invoice) :
    (strFalsy invoice.po_reference = true →
      compare_invoice_with_po pos invoice =
        { invoice_number := invoice.invoice_number, status := .ERROR,
          error := some "Invoice has no PO reference",
          invoice_date := none, po_reference := none, po_date := none,
          vendor_name := none, invoice_total := none, po_total := none,
          header_issues := none, line_item_comparison := none,
          total_issues := none }) ∧
    (∀ s : String, invoice.po_reference = some s → s ≠ "" →
      po_lookup pos s = none →
      compare_invoice_with_po pos invoice =
        { invoice_number := invoice.invoice_number, status := .ERROR,
          error := some ("Referenced PO " ++ s ++ " not found"),
          invoice_date := none, po_reference := some s, po_date := none,
          vendor_name := none, invoice_total := none, po_total := none,
          header_issues := none, line_item_comparison := none,
          total_issues := none }) ∧
    (∀ acc : Results, (compare_invoice_with_po pos invoice).status = .ERROR →
      processInvoice pos acc invoice =
        some { acc with
                errors := acc.errors ++ [compare_invoice_with_po pos invoice],
                summary := { acc.summary with
                              total_errors := acc.summary.total_errors + 1 } }) := by
  refine ⟨compare_noref pos invoice, compare_notfound pos invoice, ?_⟩
  intro acc herr
  exact processInvoice_of_error pos acc invoice herr

/-- C8: for an invoice whose PO resolves, `total_issues` is exactly the
number of header issues plus the number of line-item mismatch entries,
and the status is MISMATCH precisely when at least one header issue or
line-item mismatch exists, MATCH otherwise. -/
theorem total_issues_and_status (pos : List PurchaseOrder) (invoice : Invoice)
    (po : PurchaseOrder) (hres : resolved_po pos invoice = some po) :
    (compare_invoice_with_po pos invoice).total_issues =
      some ((header_issues invoice po).length +
        (compare_line_items invoice.line_items po.line_items).mismatches.length) ∧
    ((compare_invoice_with_po pos invoice).status = .MISMATCH ↔
      header_issues invoice po ≠ [] ∨
      (compare_line_items invoice.line_items po.line_items).mismatches ≠ []) ∧
    ((compare_invoice_with_po pos invoice).status = .MATCH ↔
      header_issues invoice po = [] ∧
      (compare_line_items invoice.line_items po.line_items).mismatches = []) := by
  rw [compare_resolved pos invoice po hres]
  refine ⟨rfl, ?_, ?_⟩ <;>
    (by_cases hh : header_issues invoice po = [] <;>
      by_cases hm : (compare_line_items invoice.line_items po.line_items).mismatches
          = [] <;>
        simp [hh, hm])

theorem filter_ite_singleton {α : Type} (p : α → Bool) (c : Prop) [Decidable c]
    (a : α) :
    List.filter p (if c then [a] else []) =
      if c then (if p a then [a] else []) else [] := by
  split
  · simp only [List.filter]
    cases p a <;> simp
  · simp

/-- C3: the aggregation itself completes on an empty invoice list, but the
text report's percentage computation divides by `total_invoices` with no
zero guard, so `get_mismatch_summary_text` raises `ZeroDivisionError`
(modelled as `none`) on zero invoices instead of reporting 0%. -/
theorem summary_text_zero_invoices_raises :
    find_all_mismatches [] [] = some (initResults []) ∧
    get_mismatch_summary_text [] [] = none := ⟨rfl, rfl⟩

/-- C6: the six header field checks are unconditional and independent —
for each of the six fields, the issues filtered to that field are exactly
the singleton demanded by that field's own condition (exact inequality
for the string fields, absolute difference above 0.01 for the amounts,
missing amounts read as 0), with severity HIGH except tax (MEDIUM), and
with the signed difference recorded on the numeric issues. -/
theorem header_field_checks (invoice : Invoice) (po : PurchaseOrder) :
    ((header_issues invoice po).filter (fun iss => iss.field == "vendor_name") =
      if invoice.vendor_name ≠ po.vendor_name then
        [{ field := "vendor_name", invoice_value := .str invoice.vendor_name,
           po_value := .str po.vendor_name, difference := none,
           severity := .HIGH }] else []) ∧
    ((header_issues invoice po).filter (fun iss => iss.field == "vendor_id") =
      if invoice.vendor_id ≠ po.vendor_id then
        [{ field := "vendor_id", invoice_value := .str invoice.vendor_id,
           po_value := .str po.vendor_id, difference := none,
           severity := .HIGH }] else []) ∧
    ((header_issues invoice po).filter (fun iss => iss.field == "currency") =
      if invoice.currency ≠ po.currency then
        [{ field := "currency", invoice_value := .str invoice.currency,
           po_value := .str po.currency, difference := none,
           severity := .HIGH }] else []) ∧
    ((header_issues invoice po).filter (fun iss => iss.field == "subtotal") =
      if |invoice.subtotal.getD 0 - po.subtotal.getD 0| > 1/100 then
        [{ field := "subtotal", invoice_value := .num invoice.subtotal,
           po_value := .num po.subtotal,
           difference := some (invoice.subtotal.getD 0 - po.subtotal.getD 0),
           severity := .HIGH }] else []) ∧
    ((header_issues invoice po).filter (fun iss => iss.field == "tax") =
      if |invoice.tax.getD 0 - po.tax.getD 0| > 1/100 then
        [{ field := "tax", invoice_value := .num invoice.tax,
           po_value := .num po.tax,
           difference := some (invoice.tax.getD 0 - po.tax.getD 0),
           severity := .MEDIUM }] else []) ∧
    ((header_issues invoice po).filter (fun iss => iss.field == "total_amount") =
      if |invoice.total_amount.getD 0 - po.total_amount.getD 0| > 1/100 then
        [{ field := "total_amount", invoice_value := .num invoice.total_amount,
           po_value := .num po.total_amount,
           difference := some (invoice.total_amount.getD 0 - po.total_amount.getD 0),
           severity := .HIGH }] else []) := by
  refine ⟨?_, ?_, ?_, ?_, ?_, ?_⟩ <;>
    (simp only [header_issues, List.filter_append, filter_ite_singleton]; simp)

/-- C5: the line-item numeric tolerance boundary is strictly greater-than
0.01 for `unit_price` and for `total`: the filtered issue for either field
exists exactly when the absolute difference exceeds 1/100, so a
difference of exactly 1/100 produces no issue while 11/1000 produces one;
with equal quantities and equal totals, a unit-price difference of
exactly 1/100 produces no issue at all. -/
theorem line_item_tolerance_boundary (i p : Item) (hq : i.quantity = p.quantity) :
    ((item_issues i p).filter (fun x => x.field == "unit_price") =
      if |i.unit_price - p.unit_price| > 1/100 then
        [{ field := "unit_price", invoice_value := i.unit_price,
           po_value := p.unit_price,
           difference := i.unit_price - p.unit_price }] else []) ∧
    (|i.unit_price - p.unit_price| = 1/100 →
      (item_issues i p).filter (fun x => x.field == "unit_price") = []) ∧
    (|i.unit_price - p.unit_price| = 11/1000 →
      (item_issues i p).filter (fun x => x.field == "unit_price") =
        [{ field := "unit_price", invoice_value := i.unit_price,
           po_value := p.unit_price,
           difference := i.unit_price - p.unit_price }]) ∧
    ((item_issues i p).filter (fun x => x.field == "total") =
      if |i.total - p.total| > 1/100 then
        [{ field := "total", invoice_value := i.total, po_value := p.total,
           difference := i.total - p.total }] else []) ∧
    (|i.total - p.total| = 1/100 →
      (item_issues i p).filter (fun x => x.field == "total") = []) ∧
    (|i.total - p.total| = 11/1000 →
      (item_issues i p).filter (fun x => x.field == "total") =
        [{ field := "total", invoice_value := i.total, po_value := p.total,
           difference := i.total - p.total }]) ∧
    (|i.unit_price - p.unit_price| = 1/100 → i.total = p.total →
      item_issues i p = []) := by
  have hup : (item_issues i p).filter (fun x => x.field == "unit_price") =
      if |i.unit_price - p.unit_price| > 1/100 then
        [{ field := "unit_price", invoice_value := i.unit_price,
           po_value := p.unit_price,
           difference := i.unit_price - p.unit_price }] else [] := by
    simp only [item_issues, List.filter_append, filter_ite_singleton]
    simp
  have htot : (item_issues i p).filter (fun x => x.field == "total") =
      if |i.total - p.total| > 1/100 then
        [{ field := "total", invoice_value := i.total, po_value := p.total,
           difference := i.total - p.total }] else [] := by
    simp only [item_issues, List.filter_append, filter_ite_singleton]
    simp
  refine ⟨hup, ?_, ?_, htot, ?_, ?_, ?_⟩
  · intro hb
    rw [hup, if_neg]
    rw [hb]
    norm_num
  · intro hb
    rw [hup, if_pos]
    rw [hb]
    norm_num
  · intro hb
    rw [htot, if_neg]
    rw [hb]
    norm_num
  · intro hb
    rw [htot, if_pos]
    rw [hb]
    norm_num
  · intro hb ht
    simp only [item_issues, hq, ht]
    rw [hb]
    norm_num

/-- C9: the mismatch list is deterministically ordered — it decomposes as
the per-invoice-item entries (`ITEM_NOT_IN_PO` / `ITEM_MISMATCH`) in
invoice iteration order followed by the `ITEM_NOT_IN_INVOICE` entries in
PO iteration order — and when a matched item differs in all of quantity,
unit price and total, all three per-field issues are reported in its
entry, not just the first. -/
theorem mismatch_order_deterministic (invoice_items po_items : List Item)
    (i p : Item) :
    ((compare_line_items invoice_items po_items).mismatches =
      invoice_items.filterMap (invoice_side_entry po_items) ++
      (po_items.filter (fun q =>
          !invoice_items.any (fun j => j.item_code == q.item_code))).map
        (fun q => LineMismatch.ITEM_NOT_IN_INVOICE q.item_code q.description
          q.quantity "Item in PO but not invoiced")) ∧
    (i.quantity ≠ p.quantity → |i.unit_price - p.unit_price| > 1/100 →
      |i.total - p.total| > 1/100 →
      item_issues i p =
        [{ field := "quantity", invoice_value := i.quantity, po_value := p.quantity,
           difference := i.quantity - p.quantity },
         { field := "unit_price", invoice_value := i.unit_price,
           po_value := p.unit_price,
           difference := i.unit_price - p.unit_price },
         { field := "total", invoice_value := i.total, po_value := p.total,
           difference := i.total - p.total }]) := by
  refine ⟨compare_line_items_mismatches invoice_items po_items, ?_⟩
  intro h1 h2 h3
  rw [one_div] at h2 h3
  simp [item_issues, h1, h2, h3]

theorem po_items_lookup_sound {po_items : List Item} {code : String} {p : Item}
    (h : po_items_lookup po_items code = some p) :
    p ∈ po_items ∧ p.item_code = code := by
  unfold po_items_lookup at h
  refine ⟨List.mem_reverse.mp (List.mem_of_find?_eq_some h), ?_⟩
  have hp := List.find?_some h
  simpa using hp

theorem po_items_lookup_isSome {po_items : List Item} {code : String}
    (h : ∃ p ∈ po_items, p.item_code = code) :
    (po_items_lookup po_items code).isSome := by
  unfold po_items_lookup
  rw [List.find?_isSome]
  obtain ⟨p, hp, hc⟩ := h
  exact ⟨p, List.mem_reverse.mpr hp, by simp [hc]⟩

/-- When the two item lists agree field-for-field on shared codes and
cover each other's codes, the line-item comparison reports no mismatch
at all. -/
theorem mismatches_nil_of_agreement (A B : List Item)
    (hagree : ∀ i ∈ A, ∀ p ∈ B, i.item_code = p.item_code →
      i.quantity = p.quantity ∧ i.unit_price = p.unit_price ∧ i.total = p.total)
    (hcov1 : ∀ i ∈ A, ∃ p ∈ B, p.item_code = i.item_code)
    (hcov2 : ∀ p ∈ B, ∃ i ∈ A, i.item_code = p.item_code) :
    (compare_line_items A B).mismatches = [] := by
  rw [compare_line_items_mismatches]
  rw [List.append_eq_nil]
  constructor
  · rw [List.filterMap_eq_nil_iff]
    intro i hi
    have hsome : (po_items_lookup B i.item_code).isSome := by
      apply po_items_lookup_isSome
      obtain ⟨p, hp, hc⟩ := hcov1 i hi
      exact ⟨p, hp, hc⟩
    obtain ⟨p, hp⟩ := Option.isSome_iff_exists.mp hsome
    obtain ⟨hmem, hcode⟩ := po_items_lookup_sound hp
    obtain ⟨hq, hu, ht⟩ := hagree i hi p hmem hcode.symm
    have hiss : item_issues i p = [] := by
      simp only [item_issues, hq, hu, ht]
      norm_num
    unfold invoice_side_entry
    rw [hp]
    simp [hiss]
  · rw [List.map_eq_nil_iff, List.filter_eq_nil_iff]
    intro p hp
    obtain ⟨i, hi, hc⟩ := hcov2 p hp
    simp
    exact ⟨i, hi, hc⟩

/-- C7: an invoice whose header fields are field-for-field identical to
its resolved PO and whose line items agree per item code (same codes on
both sides, equal quantity / unit price / total wherever codes coincide)
is classified MATCH with `total_issues = 0`; moreover the zero-mismatch
outcome of the line-item comparison is invariant under permutation of
either item sequence. -/
theorem identical_pair_matches (pos : List PurchaseOrder) (invoice : Invoice)
    (po : PurchaseOrder)
    (hres : resolved_po pos invoice = some po)
    (hvn : invoice.vendor_name = po.vendor_name)
    (hvi : invoice.vendor_id = po.vendor_id)
    (hcur : invoice.currency = po.currency)
    (hsub : invoice.subtotal = po.subtotal)
    (htax : invoice.tax = po.tax)
    (htot : invoice.total_amount = po.total_amount)
    (hagree : ∀ i ∈ invoice.line_items, ∀ p ∈ po.line_items,
      i.item_code = p.item_code →
      i.quantity = p.quantity ∧ i.unit_price = p.unit_price ∧ i.total = p.total)
    (hcov1 : ∀ i ∈ invoice.line_items, ∃ p ∈ po.line_items,
      p.item_code = i.item_code)
    (hcov2 : ∀ p ∈ po.line_items, ∃ i ∈ invoice.line_items,
      i.item_code = p.item_code) :
    (compare_invoice_with_po pos invoice).status = .MATCH ∧
    (compare_invoice_with_po pos invoice).total_issues = some 0 ∧
    ∀ A B : List Item, A.Perm invoice.line_items → B.Perm po.line_items →
      (compare_line_items A B).mismatches = [] := by
  have hheader : header_issues invoice po = [] := by
    simp only [header_issues, hvn, hvi, hcur, hsub, htax, htot]
    norm_num
  have hnil : ∀ A B : List Item, A.Perm invoice.line_items →
      B.Perm po.line_items → (compare_line_items A B).mismatches = [] := by
    intro A B hA hB
    apply mismatches_nil_of_agreement
    · intro i hi p hp hc
      exact hagree i (hA.mem_iff.mp hi) p (hB.mem_iff.mp hp) hc
    · intro i hi
      obtain ⟨p, hp, hc⟩ := hcov1 i (hA.mem_iff.mp hi)
      exact ⟨p, hB.mem_iff.mpr hp, hc⟩
    · intro p hp
      obtain ⟨i, hi, hc⟩ := hcov2 p (hB.mem_iff.mp hp)
      exact ⟨i, hA.mem_iff.mpr hi, hc⟩
  have hline : (compare_line_items invoice.line_items po.line_items).mismatches
      = [] := hnil invoice.line_items po.line_items (List.Perm.refl _)
      (List.Perm.refl _)
  rw [compare_resolved pos invoice po hres]
  refine ⟨?_, ?_, hnil⟩
  · simp [hheader, hline]
  · simp [hheader, hline]

theorem find_all_mismatches_partition_witness :
    runNoRef.matched.length + runNoRef.mismatched.length +
      runNoRef.errors.length = [invNoRef].length ∧
    runNoRef.total_invoices = [invNoRef].length :=
  have h := find_all_mismatches_partition [] [invNoRef] runNoRef rfl
  ⟨h.1, h.2.1⟩

theorem compare_unresolved_reference_error_witness :
    compare_invoice_with_po [] invNoRef =
      { invoice_number := invNoRef.invoice_number, status := .ERROR,
        error := some "Invoice has no PO reference",
        invoice_date := none, po_reference := none, po_date := none,
        vendor_name := none, invoice_total := none, po_total := none,
        header_issues := none, line_item_comparison := none,
        total_issues := none } :=
  (compare_unresolved_reference_error [] invNoRef).1 rfl

theorem total_amount_variance_correct_witness :
    runNoRef.summary.total_amount_variance = variance_spec [] [invNoRef] :=
  (total_amount_variance_correct [] [invNoRef] runNoRef rfl).1

theorem line_item_tolerance_boundary_witness :
    (item_issues itemP itemQ).filter (fun x => x.field == "unit_price") = [] :=
  (line_item_tolerance_boundary itemP itemQ rfl).2.1
    (by simp [itemP, itemQ])

theorem header_field_checks_witness :
    (header_issues invMatch poA).filter (fun iss => iss.field == "tax") =
      if |invMatch.tax.getD 0 - poA.tax.getD 0| > 1/100 then
        [{ field := "tax", invoice_value := .num invMatch.tax,
           po_value := .num poA.tax,
           difference := some (invMatch.tax.getD 0 - poA.tax.getD 0),
           severity := .MEDIUM }] else [] :=
  (header_field_checks invMatch poA).2.2.2.2.1

theorem identical_pair_matches_witness :
    (compare_invoice_with_po [poA] invMatch).status = .MATCH ∧
    (compare_invoice_with_po [poA] invMatch).total_issues = some 0 :=
  have h := identical_pair_matches [poA] invMatch poA rfl rfl rfl rfl rfl rfl rfl
    (by simp [invMatch, poA]) (by simp [invMatch, poA]) (by simp [invMatch, poA])
  ⟨h.1, h.2.1⟩

theorem total_issues_and_status_witness :
    (compare_invoice_with_po [poA] invMatch).total_issues =
      some ((header_issues invMatch poA).length +
        (compare_line_items invMatch.line_items poA.line_items).mismatches.length) :=
  (total_issues_and_status [poA] invMatch poA rfl).1

theorem mismatch_order_deterministic_witness :
    item_issues itemB itemA =
      [{ field := "quantity", invoice_value := itemB.quantity,
         po_value := itemA.quantity,
         difference := itemB.quantity - itemA.quantity },
       { field := "unit_price", invoice_value := itemB.unit_price,
         po_value := itemA.unit_price,
         difference := itemB.unit_price - itemA.unit_price },
       { field := "total", invoice_value := itemB.total, po_value := itemA.total,
         difference := itemB.total - itemA.total }] :=
  (mismatch_order_deterministic [] [] itemB itemA).2
    (by simp [itemB, itemA]) (by simp [itemB, itemA]; norm_num)
    (by simp [itemB, itemA]; norm_num)

theorem severity_counters_header_only_witness :
    runNoRef.summary.high_severity_issues +
      runNoRef.summary.medium_severity_issues =
        header_count_spec [] [invNoRef] :=
  (severity_counters_header_only [] [invNoRef] runNoRef rfl).1

end InvoicePOMatcher
